import Mathlib

/-!
# Verification of the WeatherWise agent core (`backend/main.py`)

This file is a shallow embedding, in Lean 4, of the live (non-commented)
code of `backend/main.py`: the `WeatherState` session state, the
`WeatherAgent` weather operations (`_parse_location`, `get_current_weather`,
`get_weather_forecast`, `get_air_quality`), and the state-management methods
(`save_location`, `update_preferences`, `get_state_summary`,
`add_to_history`, `get_recent_history`).

Modelling conventions:

* Python dict values and JSON response bodies are modelled by the `Json`
  inductive type (numbers as `ℚ`; IEEE floating-point rounding is out of
  scope, no claim depends on it).
* Python dicts are modelled as association lists with insertion-order
  semantics (`Dict`): a write to an existing key updates it in place, a
  write to a fresh key appends at the end — exactly CPython's dict order.
* A raised Python exception is modelled by `none` (`Option`): a weather
  operation returning `none` means the Python code raises an exception
  past the Agent boundary (e.g. `KeyError` when indexing a JSON body that
  lacks an expected field).
* The outbound HTTP calls (`requests.get`) are modelled by passing the
  response(s) the external endpoints would give as explicit arguments, and
  by returning the request(s) the code issues (URL and params dict) as an
  explicit trace, so that theorems can speak about which calls are made
  and with which parameters.
* Python's builtin `float()` string parsing is abstracted as a parameter
  `pf : List Char → Option ℚ` (`none` = `ValueError`); the theorems about
  `_parse_location` hold for every such parser.  `simpleFloat?` below is
  one concrete executable parser used to evaluate theorems on concrete
  inputs.
* Strings are handled through their character lists where splitting is
  involved (`String.toList`), mirroring Python's `str.split`.
* `datetime.now()` is abstracted as an explicit natural-number timestamp
  argument; `isoformat()` is dropped (only presence/absence of
  `last_interaction` matters to the claims).
-/

/-- JSON-ish model of Python values travelling through the agent
(dict / list / str / number / bool / None). -/
inductive Json where
  | null
  | bool (b : Bool)
  | num (q : ℚ)
  | str (s : String)
  | arr (items : List Json)
  | obj (fields : List (String × Json))
deriving Inhabited

/-- A Python `dict` with `String` keys, as an insertion-ordered
association list with unique keys (the operations below preserve
uniqueness the way CPython does). -/
abbrev Dict (α : Type) := List (String × α)

/-- `d[k]` lookup returning `none` when the key is absent. -/
def dictGet? {α : Type} : Dict α → String → Option α
  | [], _ => none
  | (k', v) :: rest, k => if k' = k then some v else dictGet? rest k

/-- `d[k] = v`: update in place if `k` is present (keeping its position,
as CPython dicts do), otherwise append at the end. -/
def dictSet {α : Type} : Dict α → String → α → Dict α
  | [], k, v => [(k, v)]
  | (k', v') :: rest, k, v =>
      if k' = k then (k, v) :: rest else (k', v') :: dictSet rest k v

/-- Python `d.update(other)`: set every key of `other` in order
(shallow merge: new keys added, existing keys overwritten, absent keys
untouched). -/
def dictUpdate {α : Type} (d upd : Dict α) : Dict α :=
  upd.foldl (fun acc kv => dictSet acc kv.1 kv.2) d

/-- Python truthiness of a JSON value (used by
`response.status_code == 200 and response.json()`). -/
def Json.truthy : Json → Bool
  | .null => false
  | .bool b => b
  | .num q => q != 0
  | .str s => s != ""
  | .arr items => !items.isEmpty
  | .obj fields => !fields.isEmpty

/-- `data[k]` on a JSON value: `none` models the Python exception raised
when `data` is not a dict (`TypeError`) or lacks the key (`KeyError`). -/
def Json.getKey : Json → String → Option Json
  | .obj fields, k => dictGet? fields k
  | _, _ => none

/-- `data[i]` on a JSON value: `none` models `IndexError` (out of range)
or `TypeError` (not a list).  (Python would also index a `str`, returning
a character; no claim depends on that case and it still feeds a
subsequent raising operation in the source, so it is folded into
`none`.) -/
def Json.getIdx : Json → Nat → Option Json
  | .arr items, i => items.get? i
  | _, _ => none

/-- Python `data.get(k, default)`: total on dicts, raises
(`AttributeError`, modelled `none`) on non-dicts. -/
def Json.get (j : Json) (k : String) (default : Json) : Option Json :=
  match j with
  | .obj fields => some ((dictGet? fields k).getD default)
  | _ => none

/-- Python slice `xs[:stop]` with an `int` stop: a negative stop counts
from the end, and the bound is clamped to `[0, len]`. -/
def pySliceTo {α : Type} (xs : List α) (stop : ℤ) : List α :=
  xs.take (if stop < 0 then max ((xs.length : ℤ) + stop) 0
           else min stop (xs.length : ℤ)).toNat

/-- Python slice `xs[start:]` with an `int` start: a negative start counts
from the end, and the bound is clamped to `[0, len]`. -/
def pySliceFrom {α : Type} (xs : List α) (start : ℤ) : List α :=
  xs.drop (if start < 0 then max ((xs.length : ℤ) + start) 0
           else min start (xs.length : ℤ)).toNat

/-- `data["list"][:days]`: slices a JSON array.  (On any non-array the
source raises `TypeError` — modelled `none`; on a `str` Python would
slice the string, a case no claim exercises.) -/
def pySliceJson (j : Json) (days : ℤ) : Option Json :=
  match j with
  | .arr items => some (.arr (pySliceTo items days))
  | _ => none

/-- Python `s.split(sep)` for a one-character separator, on character
lists: always returns at least one piece; `n` separators give `n + 1`
pieces, empty pieces included. -/
def splitOnChar (sep : Char) : List Char → List (List Char)
  | [] => [[]]
  | c :: cs =>
      if c = sep then [] :: splitOnChar sep cs
      else
        match splitOnChar sep cs with
        | t :: ts => (c :: t) :: ts
        | [] => [[c]]

/-- Result of `WeatherAgent._parse_location`: either parsed coordinates
(`{"lat": .., "lon": ..}`) or the original string as a place-name query
(`{"q": location}`). -/
inductive Loc (F : Type) where
  | coords (lat lon : F)
  | query (q : String)
deriving DecidableEq

/-- `WeatherAgent._parse_location` (`backend/main.py:116-124`), with
Python's `float()` abstracted as `pf` (`none` = `ValueError`):

```python
try:
    if "," in location:
        lat, lon = map(float, location.split(","))
        return {"lat": lat, "lon": lon}
    else:
        return {"q": location}
except Exception:
    return {"q": location}
```

The `try`/`except` (wrong token count from the unpacking, or a failed
`float()`) is modelled by the fall-through `.query` branches; the
function is total, mirroring "never raises on any input". -/
def WeatherAgent.parse_location {F : Type} (pf : List Char → Option F)
    (location : String) : Loc F :=
  if ',' ∈ location.toList then
    match splitOnChar ',' location.toList with
    | [a, b] =>
        match pf a, pf b with
        | some lat, some lon => .coords lat lon
        | _, _ => .query location
    | _ => .query location
  else .query location

/-- Parse a list of decimal digit characters as a natural number
(helper for the concrete sample float parser). -/
def parseNatDigits (cs : List Char) : Option ℕ :=
  if cs ≠ [] ∧ cs.all Char.isDigit then
    some (cs.foldl (fun a c => 10 * a + (c.toNat - 48)) 0)
  else none

/-- A concrete executable stand-in for Python's `float()` covering plain
integer literals with an optional leading minus sign (a strict subset of
what `float()` accepts) — used only to evaluate the parameterised
theorems on concrete inputs. -/
def simpleFloat? (cs : List Char) : Option ℚ :=
  let neg : Bool := cs.head? = some '-'
  let t : List Char := if neg then cs.tail else cs
  (parseNatDigits t).map (fun n => if neg then -(n : ℚ) else (n : ℚ))

/-- One entry of `conversation_history`: `{"role", "content", "timestamp"}`
(the timestamp string is modelled by the abstract instant `ℕ`). -/
structure HistEntry where
  role : String
  content : String
  timestamp : ℕ
deriving DecidableEq

/-- `WeatherState` (`backend/main.py:29-33`): the per-agent session
state.  All fields default to the pydantic `default_factory` values
(`last_interaction: Optional[datetime] = None`). -/
structure WeatherState where
  conversation_history : List HistEntry := []
  last_interaction : Option ℕ := none
  saved_locations : Dict Json := []
  user_preferences : Dict Json := []

/-- The fresh state built at `WeatherAgent.__init__` (`self.state = WeatherState()`). -/
def initState : WeatherState := {}

/-- `WeatherState.add_to_history` (`backend/main.py:35-41`).  The source
calls `datetime.now()` twice (once for the entry's `timestamp`, once for
`last_interaction`); both instants are explicit arguments here. -/
def WeatherState.add_to_history (st : WeatherState) (role content : String)
    (t1 t2 : ℕ) : WeatherState :=
  { st with
    conversation_history :=
      st.conversation_history ++ [{ role := role, content := content, timestamp := t1 }],
    last_interaction := some t2 }

/-- `WeatherState.get_recent_history` (`backend/main.py:43-44`):
`return self.conversation_history[-limit:]`. -/
def WeatherState.get_recent_history (st : WeatherState) (limit : ℤ) : List HistEntry :=
  pySliceFrom st.conversation_history (-limit)

/-- `WeatherState.save_location` (`backend/main.py:46-47`):
`self.saved_locations[location] = data`. -/
def WeatherState.save_location (st : WeatherState) (location : String)
    (data : Json) : WeatherState :=
  { st with saved_locations := dictSet st.saved_locations location data }

/-- `WeatherAgent.save_location` (`backend/main.py:187-188`): delegates
to the state. -/
def WeatherAgent.save_location (st : WeatherState) (location : String)
    (data : Json) : WeatherState :=
  st.save_location location data

/-- `WeatherAgent.update_preferences` (`backend/main.py:190-191`):
`self.state.user_preferences.update(preferences)` — a shallow merge. -/
def WeatherAgent.update_preferences (st : WeatherState)
    (preferences : Dict Json) : WeatherState :=
  { st with user_preferences := dictUpdate st.user_preferences preferences }

/-- The read-only projection returned by `WeatherAgent.get_state_summary`
(`backend/main.py:193-199`).  `saved_locations` holds only the labels
(`list(self.state.saved_locations.keys())`), never the payloads;
`last_interaction` keeps the abstract instant (`isoformat` dropped),
`none` exactly when the state's field is `None`. -/
structure StateSummary where
  conversation_count : ℕ
  last_interaction : Option ℕ
  saved_locations : List String
  preferences : Dict Json

/-- `WeatherAgent.get_state_summary` (`backend/main.py:193-199`). -/
def WeatherAgent.get_state_summary (st : WeatherState) : StateSummary :=
  { conversation_count := st.conversation_history.length,
    last_interaction := st.last_interaction,
    saved_locations := st.saved_locations.map Prod.fst,
    preferences := st.user_preferences }

/-- The environment credential `OPENWEATHER_API_KEY` (its value is
irrelevant to every claim; only its position in the params dict is). -/
def OPENWEATHER_API_KEY : String := "OPENWEATHER_API_KEY"

/-- Current-conditions endpoint URL (`backend/main.py:128`). -/
def weather_url : String := "http://api.openweathermap.org/data/2.5/weather"

/-- Forecast endpoint URL (`backend/main.py:147`). -/
def forecast_url : String := "http://api.openweathermap.org/data/2.5/forecast"

/-- Geocoding endpoint URL (`backend/main.py:168`). -/
def geo_url : String := "http://api.openweathermap.org/geo/1.0/direct"

/-- Air-pollution endpoint URL (`backend/main.py:175`). -/
def aq_url : String := "http://api.openweathermap.org/data/2.5/air_pollution"

/-- One outbound `requests.get(url, params=params)` call, recorded as a
trace element. -/
structure Request where
  url : String
  params : Dict Json
deriving Inhabited

/-- One external HTTP response, as consumed by the source
(`response.status_code` and `response.json()`). -/
structure HttpResponse where
  status_code : ℕ
  body : Json

/-- A weather operation's return value: either the success payload or the
`{"error": msg}` dict. -/
inductive OpResult (α : Type) where
  | ok (data : α)
  | err (msg : String)

/-- The params dict produced by `_parse_location`:
`{"lat": lat, "lon": lon}` or `{"q": location}`. -/
def locParams : Loc ℚ → Dict Json
  | .coords lat lon => [("lat", Json.num lat), ("lon", Json.num lon)]
  | .query q => [("q", Json.str q)]

/-- `self.state.user_preferences.get("units", "metric")`
(`backend/main.py:131,150`). -/
def unitsOf (st : WeatherState) : Json :=
  (dictGet? st.user_preferences "units").getD (Json.str "metric")

/-- The params dict of the current-weather / forecast request
(`backend/main.py:129-131,148-150`): location params, then
`params["appid"] = ...`, then `params["units"] = ...`. -/
def weatherParams (pf : List Char → Option ℚ) (st : WeatherState)
    (location : String) : Dict Json :=
  dictSet
    (dictSet (locParams (WeatherAgent.parse_location pf location))
      "appid" (Json.str OPENWEATHER_API_KEY))
    "units" (unitsOf st)

/-- The success-path field extraction of `get_current_weather`
(`backend/main.py:135-142`): `data["main"]["temp"]`, ..., `none` models
the `KeyError`/`TypeError` raised when a field is missing. -/
structure CurrentData where
  temperature : Json
  feels_like : Json
  humidity : Json
  description : Json
  wind_speed : Json

def extract_current (data : Json) : Option CurrentData := do
  let temperature ← (data.getKey "main").bind (fun m => m.getKey "temp")
  let feels_like ← (data.getKey "main").bind (fun m => m.getKey "feels_like")
  let humidity ← (data.getKey "main").bind (fun m => m.getKey "humidity")
  let description ←
    ((data.getKey "weather").bind (fun w => w.getIdx 0)).bind
      (fun e => e.getKey "description")
  let wind_speed ← (data.getKey "wind").bind (fun w => w.getKey "speed")
  pure { temperature := temperature, feels_like := feels_like,
         humidity := humidity, description := description,
         wind_speed := wind_speed }

/-- `WeatherAgent.get_current_weather` (`backend/main.py:126-143`).
Returns the issued request (URL + params) and the outcome: `some (ok _)`
on a well-formed 200 response, `some (err _)` on any other status, and
`none` when the Python code raises (200 response whose body lacks the
expected fields). -/
def WeatherAgent.get_current_weather (pf : List Char → Option ℚ)
    (st : WeatherState) (location : String) (resp : HttpResponse) :
    Request × Option (OpResult CurrentData) :=
  ({ url := weather_url, params := weatherParams pf st location },
   if resp.status_code = 200 then (extract_current resp.body).map OpResult.ok
   else some (.err ("Failed to get weather data: " ++ toString resp.status_code)))

/-- The success payload of `get_weather_forecast`
(`backend/main.py:155-158`). -/
structure ForecastData where
  forecast : Json
  city : Json

/-- The success-path extraction of `get_weather_forecast`
(`backend/main.py:154-158`): `data["list"][:days]` and
`data.get("city", {}).get("name", "Unknown")`. -/
def extract_forecast (data : Json) (days : ℤ) : Option ForecastData := do
  let lst ← data.getKey "list"
  let forecast ← pySliceJson lst days
  let cityObj ← data.get "city" (Json.obj [])
  let city ← cityObj.get "name" (Json.str "Unknown")
  pure { forecast := forecast, city := city }

/-- `WeatherAgent.get_weather_forecast` (`backend/main.py:145-159`).
Same conventions as `get_current_weather`; `days` is the Python `int`
argument (default 3 at the call sites). -/
def WeatherAgent.get_weather_forecast (pf : List Char → Option ℚ)
    (st : WeatherState) (location : String) (days : ℤ) (resp : HttpResponse) :
    Request × Option (OpResult ForecastData) :=
  ({ url := forecast_url, params := weatherParams pf st location },
   if resp.status_code = 200 then (extract_forecast resp.body days).map OpResult.ok
   else some (.err ("Failed to get forecast data: " ++ toString resp.status_code)))

/-- The success payload of `get_air_quality` (`backend/main.py:180-183`). -/
structure AirData where
  aqi : Json
  components : Json

/-- The success-path extraction of `get_air_quality`
(`backend/main.py:179-183`): `aq_data["list"][0]["main"]["aqi"]` and
`aq_data["list"][0]["components"]`. -/
def extract_air (aq_data : Json) : Option AirData := do
  let e0 ← (aq_data.getKey "list").bind (fun l => l.getIdx 0)
  let aqi ← (e0.getKey "main").bind (fun m => m.getKey "aqi")
  let components ← e0.getKey "components"
  pure { aqi := aqi, components := components }

/-- The air-pollution request (`backend/main.py:175-176`):
`{"lat": lat, "lon": lon, "appid": OPENWEATHER_API_KEY}`.  In the
geocoded path `lat`/`lon` are whatever JSON values the geocoder
returned, hence `Json` arguments. -/
def aq_request (latJ lonJ : Json) : Request :=
  { url := aq_url,
    params := [("lat", latJ), ("lon", lonJ),
               ("appid", Json.str OPENWEATHER_API_KEY)] }

/-- The geocoding request (`backend/main.py:168-169`):
`{**coords, "limit": 1, "appid": OPENWEATHER_API_KEY}` where `coords`
is the `{"q": location}` dict. -/
def geo_request (q : String) : Request :=
  { url := geo_url,
    params := dictSet (dictSet (locParams (Loc.query q))
      "limit" (Json.num 1)) "appid" (Json.str OPENWEATHER_API_KEY) }

/-- The tail of `get_air_quality` from the moment coordinates are in hand
(`backend/main.py:175-185`): issue the pollution request; on 200 extract
(raising — `none` — on a malformed body), otherwise fall through to
`{"error": "Failed to get air quality data"}`. -/
def aqCall (latJ lonJ : Json) (aqResp : HttpResponse) :
    List Request × Option (OpResult AirData) :=
  ([aq_request latJ lonJ],
   if aqResp.status_code = 200 then (extract_air aqResp.body).map OpResult.ok
   else some (.err "Failed to get air quality data"))

/-- The geocoding branch of `get_air_quality`
(`backend/main.py:167-173`): issue the geocoding request; on a 200
answer with a truthy body take `response.json()[0]["lat"/"lon"]`
(raising — `none` — on a malformed body) and continue with the pollution
call, otherwise return
`{"error": "Unable to resolve location to coordinates"}`. -/
def geoPath (q : String) (geoResp aqResp : HttpResponse) :
    List Request × Option (OpResult AirData) :=
  if geoResp.status_code = 200 ∧ geoResp.body.truthy then
    match (geoResp.body.getIdx 0).bind (fun e => e.getKey "lat"),
          (geoResp.body.getIdx 0).bind (fun e => e.getKey "lon") with
    | some latJ, some lonJ =>
        let r := aqCall latJ lonJ aqResp
        (geo_request q :: r.1, r.2)
    | _, _ => ([geo_request q], none)
  else ([geo_request q], some (.err "Unable to resolve location to coordinates"))

/-- `WeatherAgent.get_air_quality` (`backend/main.py:161-185`).
`geoResp` is the response the geocoding endpoint would give if called
(the coordinate path never consults it), `aqResp` the pollution
endpoint's response.  The first component is the trace of requests
actually issued, in order. -/
def WeatherAgent.get_air_quality (pf : List Char → Option ℚ)
    (location : String) (geoResp aqResp : HttpResponse) :
    List Request × Option (OpResult AirData) :=
  match WeatherAgent.parse_location pf location with
  | .coords lat lon => aqCall (Json.num lat) (Json.num lon) aqResp
  | .query q => geoPath q geoResp aqResp

/-- One state-touching step of the agent, for the reachability invariant:
the three weather operations, `get_recent_history` and
`get_state_summary` never mutate the session state and are represented
by the read-only step. -/
inductive AgentOp where
  | add_to_history (role content : String) (t1 t2 : ℕ)
  | save_location (label : String) (data : Json)
  | update_preferences (prefs : Dict Json)
  | read_only

/-- Apply one agent operation to the session state. -/
def applyOp (st : WeatherState) : AgentOp → WeatherState
  | .add_to_history role content t1 t2 => st.add_to_history role content t1 t2
  | .save_location label data => WeatherAgent.save_location st label data
  | .update_preferences prefs => WeatherAgent.update_preferences st prefs
  | .read_only => st

/-- The state reached from a fresh `WeatherState` by a sequence of agent
operations. -/
def runOps (ops : List AgentOp) : WeatherState :=
  ops.foldl applyOp initState

/-! ## Helper lemmas -/

theorem splitOnChar_length (sep : Char) (l : List Char) :
    (splitOnChar sep l).length = l.count sep + 1 := by
  induction l with
  | nil => simp [splitOnChar]
  | cons c cs ih =>
      by_cases h : c = sep
      · simp [splitOnChar, h, List.count_cons, ih]
      · simp only [splitOnChar, if_neg h]
        cases hs : splitOnChar sep cs with
        | nil => rw [hs] at ih; simp at ih
        | cons t ts =>
            rw [hs] at ih
            simp only [List.length_cons] at ih ⊢
            have hc : cs.count sep = (c :: cs).count sep := by
              simp [List.count_cons, h]
            omega

theorem mem_of_splitOnChar_pair {l : List Char} {a b : List Char}
    (h : splitOnChar ',' l = [a, b]) : ',' ∈ l := by
  have hlen := splitOnChar_length ',' l
  rw [h] at hlen
  have : 0 < l.count ',' := by simp at hlen; omega
  exact List.count_pos_iff.mp this

theorem dictGet?_dictSet_self {α : Type} (d : Dict α) (k : String) (v : α) :
    dictGet? (dictSet d k v) k = some v := by
  induction d with
  | nil => simp [dictSet, dictGet?]
  | cons kv rest ih =>
      by_cases h : kv.1 = k
      · simp [dictSet, h, dictGet?]
      · simp [dictSet, h, dictGet?, ih]

theorem mem_keys_dictSet {α : Type} (d : Dict α) (k : String) (v : α) :
    k ∈ (dictSet d k v).map Prod.fst := by
  induction d with
  | nil => simp [dictSet]
  | cons kv rest ih =>
      by_cases h : kv.1 = k
      · simp [dictSet, h]
      · simp only [dictSet, if_neg h, List.map_cons, List.mem_cons]
        exact Or.inr ih

/-! ## Claims -/

/-- C1: `_parse_location` returns the coordinate variant `{lat, lon}`
with exactly the parsed values for every input string consisting of
exactly two float-parseable tokens separated by one comma (one comma ⟺
the split yields exactly two pieces), and the place-name variant carrying
the original string verbatim for every other input; being a total Lean
function of the whole input space, it never raises on any input.  Proved
for every float parser `pf`. -/
theorem parse_location_coords_or_query {F : Type} (pf : List Char → Option F)
    (location : String) :
    (∀ a b lat lon, splitOnChar ',' location.toList = [a, b] →
        pf a = some lat → pf b = some lon →
        WeatherAgent.parse_location pf location = Loc.coords lat lon)
    ∧ ((¬ ∃ a b lat lon, splitOnChar ',' location.toList = [a, b] ∧
          pf a = some lat ∧ pf b = some lon) →
        WeatherAgent.parse_location pf location = Loc.query location) := by
  constructor
  · intro a b lat lon hsplit ha hb
    have hmem : ',' ∈ location.toList := mem_of_splitOnChar_pair hsplit
    unfold WeatherAgent.parse_location
    rw [if_pos hmem, hsplit]
    simp [ha, hb]
  · intro hne
    unfold WeatherAgent.parse_location
    by_cases hmem : ',' ∈ location.toList
    · rw [if_pos hmem]
      rcases hsplit : splitOnChar ',' location.toList with _ | ⟨a, _ | ⟨b, _ | _⟩⟩
      · rfl
      · rfl
      · rcases ha : pf a with _ | lat
        · simp [ha]
        · rcases hb : pf b with _ | lon
          · simp [ha, hb]
          · exact absurd ⟨a, b, lat, lon, hsplit, ha, hb⟩ hne
      · rfl
    · rw [if_neg hmem]

/-- Witness for C1: evaluates both halves of
`parse_location_coords_or_query` on concrete inputs — `"40,-74"` parses
to coordinates `(40, -74)`, and `"Paris, France"` falls back to the
verbatim place-name query. -/
theorem parse_location_coords_or_query_witness :
    WeatherAgent.parse_location simpleFloat? "40,-74" = Loc.coords (40 : ℚ) (-74 : ℚ)
    ∧ WeatherAgent.parse_location simpleFloat? "Paris, France" = Loc.query "Paris, France" :=
  ⟨(parse_location_coords_or_query simpleFloat? "40,-74").1
      "40".toList "-74".toList 40 (-74) rfl rfl rfl,
   (parse_location_coords_or_query simpleFloat? "Paris, France").2
      (by
        rintro ⟨a, b, lat, lon, hsplit, ha, hb⟩
        have hs : splitOnChar ',' "Paris, France".toList
            = ["Paris".toList, " France".toList] := by decide
        rw [hs] at hsplit
        injection hsplit with h1 h2
        rw [← h1] at ha
        rw [show simpleFloat? "Paris".toList = none from rfl] at ha
        exact Option.noConfusion ha)⟩

/-- C3: after `update_preferences({"units": "imperial"})` the
current-weather request is issued with `units=imperial`, for every
starting session state; and when no preference update has set `"units"`,
the request is issued with the default `units=metric`. -/
theorem units_preference (pf : List Char → Option ℚ) (st : WeatherState)
    (location : String) (resp : HttpResponse) :
    dictGet? ((WeatherAgent.get_current_weather pf
        (WeatherAgent.update_preferences st [("units", Json.str "imperial")])
        location resp).1.params) "units" = some (Json.str "imperial")
    ∧ (dictGet? st.user_preferences "units" = none →
       dictGet? ((WeatherAgent.get_current_weather pf st location resp).1.params) "units"
         = some (Json.str "metric")) := by
  have h1 : ∀ st' : WeatherState,
      dictGet? ((WeatherAgent.get_current_weather pf st' location resp).1.params) "units"
        = some (unitsOf st') := by
    intro st'
    show dictGet? (weatherParams pf st' location) "units" = some (unitsOf st')
    unfold weatherParams
    exact dictGet?_dictSet_self _ _ _
  constructor
  · rw [h1]
    have h2 : unitsOf (WeatherAgent.update_preferences st [("units", Json.str "imperial")])
        = Json.str "imperial" := by
      unfold unitsOf WeatherAgent.update_preferences dictUpdate
      simp only [List.foldl_cons, List.foldl_nil]
      rw [dictGet?_dictSet_self]
      rfl
    rw [h2]
  · intro hnone
    rw [h1]
    unfold unitsOf
    rw [hnone]
    rfl

/-- Witness for C3: from the fresh state (no `"units"` preference),
the imperial update yields `units=imperial` and the untouched state
yields `units=metric`. -/
theorem units_preference_witness :
    dictGet? ((WeatherAgent.get_current_weather simpleFloat?
        (WeatherAgent.update_preferences initState [("units", Json.str "imperial")])
        "London" ⟨200, Json.null⟩).1.params) "units" = some (Json.str "imperial")
    ∧ dictGet? ((WeatherAgent.get_current_weather simpleFloat? initState
        "London" ⟨200, Json.null⟩).1.params) "units" = some (Json.str "metric") :=
  ⟨(units_preference simpleFloat? initState "London" ⟨200, Json.null⟩).1,
   (units_preference simpleFloat? initState "London" ⟨200, Json.null⟩).2 rfl⟩

/-- C5: for every location string that `_parse_location` resolves to
coordinates, `get_air_quality` issues exactly one outbound call — the
pollution-endpoint request with exactly those coordinates — and in
particular no geocoding call, whatever the geocoder would have
answered. -/
theorem air_quality_coords_direct (pf : List Char → Option ℚ) (location : String)
    (lat lon : ℚ) (geoResp aqResp : HttpResponse)
    (h : WeatherAgent.parse_location pf location = Loc.coords lat lon) :
    (WeatherAgent.get_air_quality pf location geoResp aqResp).1
      = [aq_request (Json.num lat) (Json.num lon)] := by
  unfold WeatherAgent.get_air_quality
  rw [h]
  rfl

/-- Witness for C5: `"40,-74"` resolves to coordinates, and the trace is
the single pollution request carrying them. -/
theorem air_quality_coords_direct_witness :
    (WeatherAgent.get_air_quality simpleFloat? "40,-74"
        ⟨200, Json.null⟩ ⟨200, Json.null⟩).1
      = [aq_request (Json.num 40) (Json.num (-74))] :=
  air_quality_coords_direct simpleFloat? "40,-74" 40 (-74)
    ⟨200, Json.null⟩ ⟨200, Json.null⟩ rfl

/-- C6: for every place-name location (query variant), when the geocoding
call does not succeed (non-200 status) or returns a falsy body (zero
candidates included), `get_air_quality` returns the resolution-failure
error result and its trace contains only the geocoding request — the
pollution endpoint is never called. -/
theorem air_quality_resolution_failure (pf : List Char → Option ℚ)
    (location q : String) (geoResp aqResp : HttpResponse)
    (hq : WeatherAgent.parse_location pf location = Loc.query q)
    (hfail : geoResp.status_code ≠ 200 ∨ geoResp.body.truthy = false) :
    WeatherAgent.get_air_quality pf location geoResp aqResp
      = ([geo_request q],
         some (OpResult.err "Unable to resolve location to coordinates")) := by
  unfold WeatherAgent.get_air_quality
  rw [hq]
  have hcond : ¬ (geoResp.status_code = 200 ∧ geoResp.body.truthy = true) := by
    rcases hfail with h | h
    · exact fun hc => h hc.1
    · intro hc
      rw [h] at hc
      exact Bool.noConfusion hc.2
  show geoPath q geoResp aqResp = _
  unfold geoPath
  rw [if_neg hcond]

/-- Witness for C6: `"Nowhereville"` is a place name and a 200 geocoding
answer with zero candidates (`[]`) yields the resolution-failure error
with only the geocoding request issued. -/
theorem air_quality_resolution_failure_witness :
    WeatherAgent.get_air_quality simpleFloat? "Nowhereville"
        ⟨200, Json.arr []⟩ ⟨200, Json.null⟩
      = ([geo_request "Nowhereville"],
         some (OpResult.err "Unable to resolve location to coordinates")) :=
  air_quality_resolution_failure simpleFloat? "Nowhereville" "Nowhereville"
    ⟨200, Json.arr []⟩ ⟨200, Json.null⟩ rfl (Or.inr rfl)

/-- C8: after `save_location(label, data)`, `get_state_summary` lists
`label` among the saved-location labels, and the summary's
saved-locations component is exactly the list of labels (keys) of the
state's saved locations — by its type `List String` it carries no
payload. -/
theorem save_location_summary (st : WeatherState) (label : String) (data : Json) :
    label ∈ (WeatherAgent.get_state_summary
        (WeatherAgent.save_location st label data)).saved_locations
    ∧ (WeatherAgent.get_state_summary
        (WeatherAgent.save_location st label data)).saved_locations
      = ((WeatherAgent.save_location st label data).saved_locations).map Prod.fst := by
  constructor
  · show label ∈ (dictSet st.saved_locations label data).map Prod.fst
    exact mem_keys_dictSet _ _ _
  · rfl

/-- C9: in every state reachable from a fresh `WeatherState` by any
sequence of agent operations (`add_to_history`, `save_location`,
`update_preferences`, and the state-read-only weather operations),
`last_interaction` is non-null iff `conversation_history` is
non-empty. -/
theorem history_interaction_invariant (ops : List AgentOp) :
    (runOps ops).last_interaction ≠ none
      ↔ (runOps ops).conversation_history ≠ [] := by
  suffices h : ∀ st : WeatherState,
      (st.last_interaction ≠ none ↔ st.conversation_history ≠ []) →
      ∀ l : List AgentOp,
        ((l.foldl applyOp st).last_interaction ≠ none
          ↔ (l.foldl applyOp st).conversation_history ≠ []) by
    exact h initState (by simp [initState]) ops
  intro st hst l
  induction l generalizing st with
  | nil => exact hst
  | cons op rest ih =>
      rw [List.foldl_cons]
      apply ih
      cases op with
      | add_to_history role content t1 t2 =>
          simp [applyOp, WeatherState.add_to_history]
      | save_location label data =>
          simpa [applyOp, WeatherAgent.save_location,
            WeatherState.save_location] using hst
      | update_preferences prefs =>
          simpa [applyOp, WeatherAgent.update_preferences] using hst
      | read_only => simpa [applyOp] using hst

/-- C10: `get_recent_history(n)` returns the last `min(n, len)` entries
of the conversation history, in order, for every `n ≥ 1`; but for
`n = 0` the slice `history[-0:]` is `history[0:]`, the entire history
(not the empty list). -/
theorem get_recent_history_last_min (st : WeatherState) (n : ℤ) :
    (1 ≤ n → st.get_recent_history n
        = st.conversation_history.drop
            (st.conversation_history.length
              - min n.toNat st.conversation_history.length))
    ∧ (n = 0 → st.get_recent_history n = st.conversation_history) := by
  constructor
  · intro hn
    unfold WeatherState.get_recent_history pySliceFrom
    rw [if_pos (by omega : (-n : ℤ) < 0)]
    congr 1
    omega
  · intro hn
    subst hn
    unfold WeatherState.get_recent_history pySliceFrom
    norm_num

/-- A concrete three-entry history used to evaluate the
`get_recent_history` theorem. -/
def exampleState : WeatherState :=
  { conversation_history :=
      [{ role := "user", content := "a", timestamp := 0 },
       { role := "assistant", content := "b", timestamp := 1 },
       { role := "user", content := "c", timestamp := 2 }] }

/-- Witness for C10: on a three-entry history, `get_recent_history 2`
returns the last two entries and `get_recent_history 0` returns the
whole history. -/
theorem get_recent_history_last_min_witness :
    (exampleState.get_recent_history 2
      = exampleState.conversation_history.drop
          (exampleState.conversation_history.length
            - min (Int.toNat 2) exampleState.conversation_history.length))
    ∧ exampleState.get_recent_history 2
        = [{ role := "assistant", content := "b", timestamp := 1 },
           { role := "user", content := "c", timestamp := 2 }]
    ∧ exampleState.get_recent_history 0 = exampleState.conversation_history :=
  ⟨(get_recent_history_last_min exampleState 2).1 (by decide),
   by decide,
   (get_recent_history_last_min exampleState 0).2 rfl⟩

/-- The tail of `get_air_quality` returns an error result (no raise)
whenever the pollution call is answered with a non-200 status. -/
theorem aqCall_snd_err (latJ lonJ : Json) (aqResp : HttpResponse)
    (h : aqResp.status_code ≠ 200) :
    (aqCall latJ lonJ aqResp).2
      = some (OpResult.err "Failed to get air quality data") := by
  show (if aqResp.status_code = 200 then _ else _) = _
  rw [if_neg h]

/-- The tail of `get_air_quality` can only raise (`none`) on a
200-status pollution answer. -/
theorem aqCall_snd_none (latJ lonJ : Json) (aqResp : HttpResponse)
    (h : (aqCall latJ lonJ aqResp).2 = none) : aqResp.status_code = 200 := by
  by_contra hne
  rw [aqCall_snd_err latJ lonJ aqResp hne] at h
  exact Option.noConfusion h

/-- The geocoding branch can only raise (`none`) when the geocoder
answered 200 (with a truthy but malformed body) or the pollution call
answered 200 (with a malformed body). -/
theorem geoPath_snd_none (q : String) (geoResp aqResp : HttpResponse)
    (h : (geoPath q geoResp aqResp).2 = none) :
    geoResp.status_code = 200 ∨ aqResp.status_code = 200 := by
  unfold geoPath at h
  by_cases hc : geoResp.status_code = 200 ∧ geoResp.body.truthy = true
  · exact Or.inl hc.1
  · rw [if_neg hc] at h
    exact Option.noConfusion h

/-- C2 (amended): each weather operation returns a result object —
data fields or an `error` field — for every response, except that a
200-status response whose JSON body lacks the expected structure makes
the operation raise (`none`) past the Agent boundary.  Concretely:
every non-200 response produces the error result (never a raise), and a
raise is possible only when some involved response has status 200. -/
theorem ops_error_policy (pf : List Char → Option ℚ) (st : WeatherState)
    (location : String) (days : ℤ) (resp geoResp aqResp : HttpResponse) :
    ((resp.status_code ≠ 200 →
        (WeatherAgent.get_current_weather pf st location resp).2
          = some (OpResult.err
              ("Failed to get weather data: " ++ toString resp.status_code)))
      ∧ ((WeatherAgent.get_current_weather pf st location resp).2 = none →
          resp.status_code = 200))
    ∧ ((resp.status_code ≠ 200 →
        (WeatherAgent.get_weather_forecast pf st location days resp).2
          = some (OpResult.err
              ("Failed to get forecast data: " ++ toString resp.status_code)))
      ∧ ((WeatherAgent.get_weather_forecast pf st location days resp).2 = none →
          resp.status_code = 200))
    ∧ (((WeatherAgent.get_air_quality pf location geoResp aqResp).2 = none →
          geoResp.status_code = 200 ∨ aqResp.status_code = 200)
      ∧ (geoResp.status_code ≠ 200 → aqResp.status_code ≠ 200 →
          ∃ msg, (WeatherAgent.get_air_quality pf location geoResp aqResp).2
            = some (OpResult.err msg))) := by
  have hcw : resp.status_code ≠ 200 →
      (WeatherAgent.get_current_weather pf st location resp).2
        = some (OpResult.err
            ("Failed to get weather data: " ++ toString resp.status_code)) := by
    intro hr
    show (if resp.status_code = 200 then _ else _) = _
    rw [if_neg hr]
  have hfc : resp.status_code ≠ 200 →
      (WeatherAgent.get_weather_forecast pf st location days resp).2
        = some (OpResult.err
            ("Failed to get forecast data: " ++ toString resp.status_code)) := by
    intro hr
    show (if resp.status_code = 200 then _ else _) = _
    rw [if_neg hr]
  refine ⟨⟨hcw, ?_⟩, ⟨hfc, ?_⟩, ?_, ?_⟩
  · intro hnone
    by_contra hne
    rw [hcw hne] at hnone
    exact Option.noConfusion hnone
  · intro hnone
    by_contra hne
    rw [hfc hne] at hnone
    exact Option.noConfusion hnone
  · intro hnone
    unfold WeatherAgent.get_air_quality at hnone
    rcases hloc : WeatherAgent.parse_location pf location with ⟨lat, lon⟩ | q <;>
      rw [hloc] at hnone
    · exact Or.inr (aqCall_snd_none _ _ _ hnone)
    · exact geoPath_snd_none q geoResp aqResp hnone
  · intro hg ha
    unfold WeatherAgent.get_air_quality
    rcases hloc : WeatherAgent.parse_location pf location with ⟨lat, lon⟩ | q
    · exact ⟨"Failed to get air quality data", aqCall_snd_err _ _ _ ha⟩
    · refine ⟨"Unable to resolve location to coordinates", ?_⟩
      show (geoPath q geoResp aqResp).2 = _
      unfold geoPath
      rw [if_neg (fun hc => hg hc.1)]

/-- Witness for C2 (amended): on 404 answers every operation returns its
error result. -/
theorem ops_error_policy_witness :
    (WeatherAgent.get_current_weather simpleFloat? initState "London"
        { status_code := 404, body := Json.null }).2
      = some (OpResult.err ("Failed to get weather data: " ++ toString 404))
    ∧ ((WeatherAgent.get_air_quality simpleFloat? "London"
        { status_code := 500, body := Json.null }
        { status_code := 500, body := Json.null }).2 = none →
      ((500 : ℕ) = 200 ∨ (500 : ℕ) = 200)) :=
  ⟨(ops_error_policy simpleFloat? initState "London" 3
      { status_code := 404, body := Json.null }
      { status_code := 404, body := Json.null }
      { status_code := 404, body := Json.null }).1.1 (by decide),
   (ops_error_policy simpleFloat? initState "London" 3
      { status_code := 404, body := Json.null }
      { status_code := 500, body := Json.null }
      { status_code := 500, body := Json.null }).2.2.1⟩

/-- Counterexample to C2 as stated: a 200 answer whose (valid JSON) body
is the empty object makes `get_current_weather` raise a `KeyError`
(`data["main"]`) past the Agent boundary — modelled by the operation
returning `none` instead of a result object. -/
theorem current_weather_malformed_200_raises :
    (WeatherAgent.get_current_weather simpleFloat? initState "London"
        { status_code := 200, body := Json.obj [] }).2 = none := rfl

/-- C4 (amended): on an HTTP 404 answer, `get_current_weather` and
`get_weather_forecast` return an error result whose message contains the
substring "404", carrying no data fields (the `err` constructor has
none); `get_air_quality`, however, returns the fixed message
`"Failed to get air quality data"`, which does not contain the status
code. -/
theorem error_404_messages (pf : List Char → Option ℚ) (st : WeatherState)
    (location : String) (days : ℤ) (lat lon : ℚ)
    (resp geoResp aqResp : HttpResponse)
    (h4 : resp.status_code = 404)
    (ha : aqResp.status_code = 404)
    (hc : WeatherAgent.parse_location pf location = Loc.coords lat lon) :
    ((WeatherAgent.get_current_weather pf st location resp).2
        = some (OpResult.err "Failed to get weather data: 404")
      ∧ "404".toList <:+: "Failed to get weather data: 404".toList)
    ∧ ((WeatherAgent.get_weather_forecast pf st location days resp).2
        = some (OpResult.err "Failed to get forecast data: 404")
      ∧ "404".toList <:+: "Failed to get forecast data: 404".toList)
    ∧ ((WeatherAgent.get_air_quality pf location geoResp aqResp).2
        = some (OpResult.err "Failed to get air quality data")
      ∧ ¬ "404".toList <:+: "Failed to get air quality data".toList) := by
  refine ⟨⟨?_, by decide⟩, ⟨?_, by decide⟩, ⟨?_, by decide⟩⟩
  · show (if resp.status_code = 200 then _ else _) = _
    rw [h4]
    rfl
  · show (if resp.status_code = 200 then _ else _) = _
    rw [h4]
    rfl
  · have hred : WeatherAgent.get_air_quality pf location geoResp aqResp
        = aqCall (Json.num lat) (Json.num lon) aqResp := by
      unfold WeatherAgent.get_air_quality
      rw [hc]
    rw [hred]
    show (if aqResp.status_code = 200 then _ else _) = _
    rw [ha]
    rfl

/-- Witness for C4 (amended), evaluated at `"40,-74"` with all external
answers at status 404. -/
theorem error_404_messages_witness :
    ((WeatherAgent.get_current_weather simpleFloat? initState "40,-74"
        { status_code := 404, body := Json.null }).2
        = some (OpResult.err "Failed to get weather data: 404")
      ∧ "404".toList <:+: "Failed to get weather data: 404".toList)
    ∧ ((WeatherAgent.get_weather_forecast simpleFloat? initState "40,-74" 3
        { status_code := 404, body := Json.null }).2
        = some (OpResult.err "Failed to get forecast data: 404")
      ∧ "404".toList <:+: "Failed to get forecast data: 404".toList)
    ∧ ((WeatherAgent.get_air_quality simpleFloat? "40,-74"
        { status_code := 404, body := Json.null }
        { status_code := 404, body := Json.null }).2
        = some (OpResult.err "Failed to get air quality data")
      ∧ ¬ "404".toList <:+: "Failed to get air quality data".toList) :=
  error_404_messages simpleFloat? initState "40,-74" 3 40 (-74)
    { status_code := 404, body := Json.null }
    { status_code := 404, body := Json.null }
    { status_code := 404, body := Json.null } rfl rfl rfl

/-- Counterexample to C4 as stated: a pollution call answered with HTTP
404 makes `get_air_quality` return the error message
`"Failed to get air quality data"`, which does not contain the
substring "404". -/
theorem air_quality_404_lacks_status :
    (WeatherAgent.get_air_quality simpleFloat? "40,-74"
        { status_code := 200, body := Json.null }
        { status_code := 404, body := Json.null }).2
      = some (OpResult.err "Failed to get air quality data")
    ∧ ¬ "404".toList <:+: "Failed to get air quality data".toList :=
  ⟨rfl, by decide⟩

/-- C7 (amended): on a 200 forecast response whose body carries a
`"list"` array, the result's forecast field is the Python slice
`list[:days]` of the provider's list — equal to the first
`min(days, len)` entries whenever `days ≥ 0` (for `days < 0` the slice
instead drops the last `|days|` entries) — and the city field is the
provider's `city.name`, or `"Unknown"` when the `"city"` key or its
`"name"` are absent. -/
theorem forecast_success (pf : List Char → Option ℚ) (st : WeatherState)
    (location : String) (days : ℤ) (resp : HttpResponse)
    (kvs : List (String × Json)) (xs : List Json)
    (h200 : resp.status_code = 200)
    (hb : resp.body = Json.obj kvs)
    (hl : dictGet? kvs "list" = some (Json.arr xs)) :
    ((dictGet? kvs "city" = none →
        (WeatherAgent.get_weather_forecast pf st location days resp).2
          = some (OpResult.ok { forecast := Json.arr (pySliceTo xs days),
                                city := Json.str "Unknown" }))
    ∧ (∀ ckvs : List (String × Json),
        dictGet? kvs "city" = some (Json.obj ckvs) →
        (WeatherAgent.get_weather_forecast pf st location days resp).2
          = some (OpResult.ok { forecast := Json.arr (pySliceTo xs days),
                                city := (dictGet? ckvs "name").getD
                                  (Json.str "Unknown") }))
    ∧ (0 ≤ days → pySliceTo xs days = xs.take days.toNat)) := by
  have key : (WeatherAgent.get_weather_forecast pf st location days resp).2
      = (extract_forecast (Json.obj kvs) days).map OpResult.ok := by
    show (if resp.status_code = 200
          then (extract_forecast resp.body days).map OpResult.ok else _) = _
    rw [if_pos h200, hb]
  refine ⟨?_, ?_, ?_⟩
  · intro hcity
    rw [key]
    unfold extract_forecast
    simp [Json.getKey, hl, pySliceJson, Json.get, hcity, dictGet?]
  · intro ckvs hcity
    rw [key]
    unfold extract_forecast
    simp [Json.getKey, hl, pySliceJson, Json.get, hcity]
  · intro hnn
    unfold pySliceTo
    rcases le_or_lt (days : ℤ) (xs.length : ℤ) with h | h
    · rw [if_neg (by omega), min_eq_left h]
    · rw [if_neg (by omega), min_eq_right (le_of_lt h)]
      rw [List.take_of_length_le (by omega : xs.length ≤ days.toNat),
          List.take_of_length_le (by simp)]

/-- Witness for C7 (amended): a 200 response with a three-entry list and
`days = 2` yields the first two entries and the provider's city name. -/
theorem forecast_success_witness :
    (WeatherAgent.get_weather_forecast simpleFloat? initState "London" 2
        { status_code := 200,
          body := Json.obj
            [("list", Json.arr [Json.num 1, Json.num 2, Json.num 3]),
             ("city", Json.obj [("name", Json.str "London")])] }).2
      = some (OpResult.ok
          { forecast := Json.arr
              (pySliceTo [Json.num 1, Json.num 2, Json.num 3] 2),
            city := (dictGet? [("name", Json.str "London")] "name").getD
              (Json.str "Unknown") })
    ∧ pySliceTo [Json.num 1, Json.num 2, Json.num 3] (2 : ℤ)
        = [Json.num 1, Json.num 2, Json.num 3].take (Int.toNat 2) :=
  ⟨(forecast_success simpleFloat? initState "London" 2
      { status_code := 200,
        body := Json.obj
          [("list", Json.arr [Json.num 1, Json.num 2, Json.num 3]),
           ("city", Json.obj [("name", Json.str "London")])] }
      [("list", Json.arr [Json.num 1, Json.num 2, Json.num 3]),
       ("city", Json.obj [("name", Json.str "London")])]
      [Json.num 1, Json.num 2, Json.num 3]
      rfl rfl rfl).2.1 [("name", Json.str "London")] rfl,
   (forecast_success simpleFloat? initState "London" 2
      { status_code := 200,
        body := Json.obj
          [("list", Json.arr [Json.num 1, Json.num 2, Json.num 3]),
           ("city", Json.obj [("name", Json.str "London")])] }
      [("list", Json.arr [Json.num 1, Json.num 2, Json.num 3]),
       ("city", Json.obj [("name", Json.str "London")])]
      [Json.num 1, Json.num 2, Json.num 3]
      rfl rfl rfl).2.2 (by decide)⟩

/-- Counterexample to C7 as stated: with `days = -1` and a two-entry
provider list, the code returns `list[:-1]` — the first entry, i.e. all
but the last — not "the first `days` entries" (which, clamped at zero,
would be the empty list). -/
theorem forecast_negative_days :
    (WeatherAgent.get_weather_forecast simpleFloat? initState "London" (-1)
        { status_code := 200,
          body := Json.obj
            [("list", Json.arr [Json.num 1, Json.num 2]),
             ("city", Json.obj [("name", Json.str "X")])] }).2
      = some (OpResult.ok { forecast := Json.arr [Json.num 1],
                            city := Json.str "X" })
    ∧ Json.arr [Json.num 1]
        ≠ Json.arr (List.take (Int.toNat (-1)) [Json.num 1, Json.num 2]) :=
  ⟨rfl, by
    intro h
    rw [show Int.toNat (-1) = 0 from rfl] at h
    simp at h⟩
